import Mathlib

/-!
Verification of the ChatList component (src/src/components/ChatList.tsx).

The component renders a sidebar of chat conversations. Its logic is embedded
shallowly: the pure display helpers (truncateText, getChatDisplayName,
getLastMessage, formatTime) become Lean functions; the two stateful async
handlers (loadChats, handleDeleteChat) become functions from the current
state together with the environment inputs (user confirmation, database
outcome, callback presence) to an outcome record listing the effects.

JS specifics carried into the embedding:
- strings are sequences of characters; `text.substring(0, k)` with a
  negative `k` clamps to 0, which matches Nat subtraction;
- `Array.filter(Boolean)` drops `undefined` and also drops the empty
  string, because Boolean("") is false;
- `Math.floor(diff / b)` for a positive integer `b` is floor division,
  which is `Int./` (Euclidean division) for positive divisors;
- `new Date()` inside formatTime reads the ambient clock, so formatTime
  takes the clock reading `now` as an explicit extra argument;
- `date.toLocaleDateString()` is environment dependent, so a date is
  modelled as its epoch-milliseconds value together with the string that
  its locale rendering would produce.
-/

namespace ChatList

/-- Modelled from the spec: a document from the external document manager
(the PDFManager module is outside this repository slice); per the glossary
it is "identified by id/name", and only those two fields are read here. -/
structure PDFDocument where
  id : String
  name : String
deriving DecidableEq

/-- Modelled from the spec: a chat message; the component reads only the
`content` field of the last message. -/
structure ChatMessage where
  content : String
deriving DecidableEq

/-- A JS `Date` as the component observes it: its epoch-milliseconds value
(`getTime`) and its locale rendering (`toLocaleDateString`). -/
structure JSDate where
  getTime : Int
  toLocaleDateString : String
deriving DecidableEq

/-- Modelled from the spec: a conversation record (the Conversation type is
declared in the external databaseService module): "a record with an
identifier, display name, list of linked document identifiers, ordered list
of messages, and creation/update timestamps". -/
structure Conversation where
  id : String
  name : String
  pdfIds : List String
  messages : List ChatMessage
  createdAt : JSDate
  updatedAt : JSDate
deriving DecidableEq

/-- JS truthiness of a string: Boolean("") is false, every other string is
truthy. `.filter(Boolean)` on a string array keeps exactly the truthy ones. -/
def stringTruthy (s : String) : Bool := s != ""

/-- Lines 80-83: `truncateText(text, maxLength)`. For a longer text it takes
`text.substring(0, maxLength - 3)` and appends "..."; substring clamps a
negative bound to 0 exactly as Nat subtraction does. -/
def truncateText (text : String) (maxLength : Nat) : String :=
  if text.length ≤ maxLength then text
  else String.mk (text.data.take (maxLength - 3)) ++ "..."

/-- Lines 91-94: the auto-naming source list. `chat.pdfIds` is mapped through
`availablePDFs.find(pdf => pdf.id === pdfId)?.name` (an optional name),
`.filter(Boolean)` keeps the found, non-empty names, and `.slice(0, 2)`
takes the first two. -/
def existingPdfNames (availablePDFs : List PDFDocument) (chat : Conversation) : List String :=
  let mapped := chat.pdfIds.map
    (fun pdfId =>
      (availablePDFs.find? (fun pdf : PDFDocument => pdf.id == pdfId)).map PDFDocument.name)
  List.take 2 (List.filter stringTruthy (List.filterMap (fun o => o) mapped))

/-- Lines 103-105 and 172-174 (both sites compute the same expression): the
number of linked pdf ids that are present in `availablePDFs`. -/
def existingPdfCount (availablePDFs : List PDFDocument) (chat : Conversation) : Nat :=
  (chat.pdfIds.filter (fun pdfId => availablePDFs.any (fun pdf => pdf.id == pdfId))).length

/-- Lines 85-109: `getChatDisplayName(chat)`. The JS branches on the length
(0 / 1 / otherwise) of the sliced list, which has at most two elements, so
the branch structure is exactly this match; `existingPdfNames[0]!` and
`existingPdfNames[1]!` are the pattern variables. -/
def getChatDisplayName (availablePDFs : List PDFDocument) (chat : Conversation) : String :=
  if chat.name ≠ "New Chat" then truncateText chat.name 30
  else
    match existingPdfNames availablePDFs chat with
    | [] => "New Chat"
    | [n] => truncateText n 30
    | n₁ :: n₂ :: _ =>
      let firstPdf := truncateText n₁ 15
      let secondPdf := truncateText n₂ 15
      let totalExistingPdfs := existingPdfCount availablePDFs chat
      let additionalCount :=
        if totalExistingPdfs > 2 then " +" ++ toString (totalExistingPdfs - 2) else ""
      firstPdf ++ " + " ++ secondPdf ++ additionalCount

/-- Lines 111-117: `getLastMessage(chat)`: "No messages yet" for an empty
message list, otherwise the content of `messages[messages.length - 1]`
truncated to 30 characters. -/
def getLastMessage (chat : Conversation) : String :=
  if h : chat.messages.length = 0 then "No messages yet"
  else
    truncateText
      (chat.messages.get
        ⟨chat.messages.length - 1, Nat.sub_lt (Nat.pos_of_ne_zero h) Nat.one_pos⟩).content
      30

/-- Lines 119-131: `formatTime(date)`. `now` is the reading of the ambient
clock (`new Date()` at line 120); `diff` may be negative when the date lies
in the future. `Math.floor(diff / b)` is floor division, i.e. `Int./` for
these positive divisors. -/
def formatTime (now : Int) (date : JSDate) : String :=
  let diff := now - date.getTime
  let minutes := diff / 60000
  let hours := diff / 3600000
  let days := diff / 86400000
  if minutes < 1 then "Just now"
  else if minutes < 60 then toString minutes ++ "m ago"
  else if hours < 24 then toString hours ++ "h ago"
  else if days < 7 then toString days ++ "d ago"
  else date.toLocaleDateString

/-- The observable effects of one run of `handleDeleteChat`: whether the
persistence deletion was invoked, the resulting local chat list, the id
passed to the `onChatDelete` callback (if it was invoked), whether the
selection was cleared via `onChatSelect(null)`, and whether the failure
alert was shown. -/
structure DeleteOutcome where
  deleteCalled : Bool
  chats : List Conversation
  deleteEvent : Option String
  selectionCleared : Bool
  alerted : Bool
deriving DecidableEq

/-- Lines 57-78: `handleDeleteChat(chatId, e)`. `confirmed` is the result of
`window.confirm`; `dbDeleteSucceeds` tells whether the awaited
`databaseService.deleteConversation(chatId)` resolves or rejects; when it
rejects, control jumps to the catch block before any state update; the
callback and the selection clearing are conditional exactly as in the
source. -/
def handleDeleteChat (chats : List Conversation) (selectedChat : Option Conversation)
    (chatId : String) (confirmed : Bool) (dbDeleteSucceeds : Bool)
    (hasDeleteCallback : Bool) : DeleteOutcome :=
  if confirmed then
    if dbDeleteSucceeds then
      { deleteCalled := true
        chats := chats.filter (fun chat => chat.id != chatId)
        deleteEvent := if hasDeleteCallback then some chatId else none
        selectionCleared :=
          match selectedChat with
          | some c => c.id == chatId
          | none => false
        alerted := false }
    else
      { deleteCalled := true
        chats := chats
        deleteEvent := none
        selectionCleared := false
        alerted := true }
  else
    { deleteCalled := false
      chats := chats
      deleteEvent := none
      selectionCleared := false
      alerted := false }

/-- Lines 35-42: `loadChats()`. The awaited
`databaseService.getConversations()` either resolves with a list, which
replaces the state, or rejects, in which case the catch block only logs and
the state is untouched. -/
def loadChats (chats : List Conversation)
    (dbResult : Except String (List Conversation)) : List Conversation :=
  match dbResult with
  | Except.ok loadedChats => loadedChats
  | Except.error _ => chats

/-- Written from the words of the spec (as amended for C1): the display name
of a conversation still named "New Chat" is composed from the non-empty
names of its linked documents that exist in `availablePDFs`; `k` counts all
existing links. A conversation with any other stored name displays its own
name truncated to 30 characters. -/
def displayNameSpec (availablePDFs : List PDFDocument) (chat : Conversation) : String :=
  if chat.name = "New Chat" then
    let names :=
      (chat.pdfIds.filterMap
        (fun pdfId =>
          (availablePDFs.find? (fun pdf : PDFDocument => pdf.id == pdfId)).map
            PDFDocument.name)).filter (fun n => n != "")
    let k := chat.pdfIds.countP
      (fun pdfId => availablePDFs.any (fun pdf : PDFDocument => pdf.id == pdfId))
    match names with
    | [] => "New Chat"
    | [n] => truncateText n 30
    | n₁ :: n₂ :: _ =>
      truncateText n₁ 15 ++ " + " ++ truncateText n₂ 15 ++
        (if 2 < k then " +" ++ toString (k - 2) else "")
  else truncateText chat.name 30

/-- Written from the words of the claim C2: the buckets are delimited by the
raw millisecond difference (one minute, 60 minutes, 24 hours, 7 days), and
N is the whole number of elapsed minutes / hours / days. -/
def formatTimeSpec (now : Int) (date : JSDate) : String :=
  let diff := now - date.getTime
  if diff < 60000 then "Just now"
  else if diff < 3600000 then toString (diff / 60000) ++ "m ago"
  else if diff < 86400000 then toString (diff / 3600000) ++ "h ago"
  else if diff < 604800000 then toString (diff / 86400000) ++ "d ago"
  else date.toLocaleDateString

/-- Lines 96-108 re-expressed with checked element access: every dereference
that the JS non-null assertions (`existingPdfNames[0]!`, `[1]!`) perform is
done through `List.get?`, and a missing element aborts with `none`. -/
def getChatDisplayNameChecked (availablePDFs : List PDFDocument)
    (chat : Conversation) : Option String :=
  if chat.name ≠ "New Chat" then some (truncateText chat.name 30)
  else
    let ns := existingPdfNames availablePDFs chat
    if ns.length = 0 then some "New Chat"
    else if ns.length = 1 then (ns.get? 0).map (fun n => truncateText n 30)
    else
      (ns.get? 0).bind (fun n₁ =>
        (ns.get? 1).map (fun n₂ =>
          let totalExistingPdfs := existingPdfCount availablePDFs chat
          let additionalCount :=
            if totalExistingPdfs > 2 then " +" ++ toString (totalExistingPdfs - 2) else ""
          truncateText n₁ 15 ++ " + " ++ truncateText n₂ 15 ++ additionalCount))

/-- Lines 111-117 re-expressed with checked element access: the read of
`messages[messages.length - 1]` goes through `List.get?`. -/
def getLastMessageChecked (chat : Conversation) : Option String :=
  if chat.messages.length = 0 then some "No messages yet"
  else (chat.messages.get? (chat.messages.length - 1)).map
    (fun m => truncateText m.content 30)

/-! ## Theorems -/

/-- C2: for every clock reading and every date, `formatTime` buckets the
difference as the claim states: "Just now" under one minute, "Nm ago" under
60 minutes, "Nh ago" under 24 hours, "Nd ago" under 7 days, and the locale
date string otherwise, with N the whole number of elapsed minutes / hours /
days. -/
theorem formatTime_eq_formatTimeSpec (now : Int) (date : JSDate) :
    formatTime now date = formatTimeSpec now date := by
  simp only [formatTime, formatTimeSpec]
  split_ifs <;> first | rfl | omega

/-- C3: the persistence deletion is invoked exactly when the user confirms
(`deleteCalled = confirmed`), and a declined confirmation leaves the chat
list unchanged, emits no deletion event, clears no selection and calls the
database not at all. -/
theorem handleDeleteChat_requires_confirm (chats : List Conversation)
    (selectedChat : Option Conversation) (chatId : String)
    (confirmed dbDeleteSucceeds hasDeleteCallback : Bool) :
    (handleDeleteChat chats selectedChat chatId confirmed dbDeleteSucceeds
        hasDeleteCallback).deleteCalled = confirmed ∧
    handleDeleteChat chats selectedChat chatId false dbDeleteSucceeds hasDeleteCallback =
      { deleteCalled := false, chats := chats, deleteEvent := none,
        selectionCleared := false, alerted := false } := by
  constructor
  · cases confirmed <;> cases dbDeleteSucceeds <;> rfl
  · rfl

/-- C4: when the user confirms but `databaseService.deleteConversation`
rejects, the catch block shows the alert and nothing else happens: the chat
list is unchanged, `onChatDelete` is not invoked and the selection is not
cleared. -/
theorem handleDeleteChat_failure_preserves_state (chats : List Conversation)
    (selectedChat : Option Conversation) (chatId : String) (hasDeleteCallback : Bool) :
    handleDeleteChat chats selectedChat chatId true false hasDeleteCallback =
      { deleteCalled := true, chats := chats, deleteEvent := none,
        selectionCleared := false, alerted := true } := rfl

/-- C8: both async persistence calls are guarded: the embedding of each
handler is a total function of the database outcome (a rejection is turned
into an ordinary outcome, never escaping), a failed load leaves the chat
list exactly as it was, a successful load replaces it, and a failed delete
only raises the alert flag while preserving the list. -/
theorem asyncFailure_recovery (chats loaded : List Conversation)
    (selectedChat : Option Conversation) (chatId e : String) (hasDeleteCallback : Bool) :
    loadChats chats (Except.error e) = chats ∧
    loadChats chats (Except.ok loaded) = loaded ∧
    (handleDeleteChat chats selectedChat chatId true false hasDeleteCallback).alerted = true ∧
    (handleDeleteChat chats selectedChat chatId true false hasDeleteCallback).chats = chats :=
  ⟨rfl, rfl, rfl, rfl⟩

/-- C9 counterexample: at text "ab" and maxLength 1 the text is longer than
maxLength, yet the truncated result has length 3, which exceeds maxLength —
refuting the claim that the result length never exceeds maxLength. -/
theorem truncateText_tiny_maxLength :
    1 < ("ab" : String).length ∧ (truncateText "ab" 1).length = 3 ∧
      ¬ (truncateText "ab" 1).length ≤ 1 := by decide

/-- C9 as amended: truncateText returns the text unchanged when its length
is at most maxLength; otherwise, when maxLength is at least 3 the result
ends in "..." and has length exactly maxLength, and when maxLength is below
3 the result is exactly "..." (of length 3, exceeding the bound). -/
theorem truncateText_bounds (text : String) (maxLength : Nat) :
    (text.length ≤ maxLength → truncateText text maxLength = text) ∧
    (maxLength < text.length → 3 ≤ maxLength →
      (truncateText text maxLength).length = maxLength ∧
      ∃ s, truncateText text maxLength = s ++ "...") ∧
    (maxLength < text.length → maxLength < 3 → truncateText text maxLength = "...") := by
  refine ⟨fun h => by rw [truncateText, if_pos h], fun h h3 => ?_, fun h h3 => ?_⟩
  · rw [truncateText, if_neg (by omega)]
    constructor
    · show (text.data.take (maxLength - 3) ++ ['.', '.', '.']).length = maxLength
      rw [List.length_append, List.length_take]
      have hd : text.data.length = text.length := rfl
      simp only [List.length_cons, List.length_nil]
      omega
    · exact ⟨String.mk (text.data.take (maxLength - 3)), rfl⟩
  · rw [truncateText, if_neg (by omega)]
    have h0 : maxLength - 3 = 0 := by omega
    rw [h0]
    rfl

/-- C9 witness: the three branches of `truncateText_bounds` evaluated at
concrete inputs. -/
theorem truncateText_bounds_witness :
    truncateText "hello" 10 = "hello" ∧
    (truncateText "abcdefghijklmnop" 10).length = 10 ∧
    truncateText "abcd" 2 = "..." :=
  ⟨(truncateText_bounds "hello" 10).1 (by decide),
   ((truncateText_bounds "abcdefghijklmnop" 10).2.1 (by decide) (by decide)).1,
   (truncateText_bounds "abcd" 2).2.2 (by decide) (by decide)⟩

/-- C7: the derived preview is "No messages yet" exactly when the message
list is empty, and otherwise the content of the last message truncated to
30 characters. -/
theorem getLastMessage_eq_last (chat : Conversation) :
    getLastMessage chat =
      match chat.messages.getLast? with
      | none => "No messages yet"
      | some m => truncateText m.content 30 := by
  rw [getLastMessage]
  split
  · rename_i h
    rw [List.length_eq_zero.mp h]
    rfl
  · rename_i h
    have hne : chat.messages ≠ [] := fun hh => h (by rw [hh]; rfl)
    rw [List.getLast?_eq_getLast_of_ne_nil hne]
    rw [List.getLast_eq_getElem chat.messages hne, List.get_eq_getElem]

/-- The auto-naming source list, rewritten over a single `filterMap`: helper
equation used to relate the component function to the spec function. -/
theorem existingPdfNames_eq (availablePDFs : List PDFDocument) (chat : Conversation) :
    existingPdfNames availablePDFs chat =
      ((chat.pdfIds.filterMap (fun pdfId =>
        (availablePDFs.find? (fun pdf : PDFDocument => pdf.id == pdfId)).map
          PDFDocument.name)).filter (fun n => n != "")).take 2 := by
  rw [existingPdfNames, List.filterMap_map]
  rfl

/-- Shared helper: the component display-name function agrees with the spec
side function everywhere. -/
theorem getChatDisplayName_eq_spec (availablePDFs : List PDFDocument) (chat : Conversation) :
    getChatDisplayName availablePDFs chat = displayNameSpec availablePDFs chat := by
  rw [getChatDisplayName, displayNameSpec, existingPdfNames_eq]
  by_cases hname : chat.name = "New Chat"
  · rw [if_neg (not_not_intro hname), if_pos hname]
    generalize ((chat.pdfIds.filterMap (fun pdfId =>
        (availablePDFs.find? (fun pdf : PDFDocument => pdf.id == pdfId)).map
          PDFDocument.name)).filter (fun n => n != "")) = ns
    rcases ns with _ | ⟨a, _ | ⟨b, t⟩⟩
    · rfl
    · rfl
    · simp only [List.take, existingPdfCount, List.countP_eq_length_filter]
  · rw [if_pos hname, if_neg hname]

/-- C1 counterexample: a conversation named "New Chat" with exactly one
linked document that exists in availablePDFs, whose name is the empty
string. The claim says the display name is that name truncated to 30
characters (the empty string); the code filters the empty name out through
`.filter(Boolean)` and displays "New Chat" instead. -/
theorem displayName_empty_named_pdf :
    existingPdfCount [⟨"p1", ""⟩] ⟨"c1", "New Chat", ["p1"], [], ⟨0, "x"⟩, ⟨0, "x"⟩⟩ = 1 ∧
    getChatDisplayName [⟨"p1", ""⟩] ⟨"c1", "New Chat", ["p1"], [], ⟨0, "x"⟩, ⟨0, "x"⟩⟩ =
      "New Chat" ∧
    getChatDisplayName [⟨"p1", ""⟩] ⟨"c1", "New Chat", ["p1"], [], ⟨0, "x"⟩, ⟨0, "x"⟩⟩ ≠
      truncateText "" 30 := by decide

/-- C1 as amended: for a conversation stored as "New Chat" the display name
is composed from the non-empty names of linked documents that exist in
availablePDFs (empty-named existing documents are skipped by the
truthiness filter, though they still count for k): zero such names give
"New Chat", one gives that name truncated to 30, two or more give the
first two names truncated to 15 joined by " + " with the " +k" suffix when
the number k of existing links exceeds 2; any other stored name is
displayed truncated to 30. The spec side function states exactly that. -/
theorem getChatDisplayName_eq_displayNameSpec (availablePDFs : List PDFDocument)
    (chat : Conversation) :
    getChatDisplayName availablePDFs chat = displayNameSpec availablePDFs chat :=
  getChatDisplayName_eq_spec availablePDFs chat

/-- C10: the guarded element accesses never fail: running the display-name
and preview derivations with every dereference checked (`List.get?` in
place of the JS non-null assertions and the unchecked last-element index)
always yields `some` of the unchecked result. -/
theorem checked_helpers_never_fail (availablePDFs : List PDFDocument) (chat : Conversation) :
    getChatDisplayNameChecked availablePDFs chat =
      some (getChatDisplayName availablePDFs chat) ∧
    getLastMessageChecked chat = some (getLastMessage chat) := by
  constructor
  · simp only [getChatDisplayNameChecked, getChatDisplayName]
    by_cases hname : chat.name = "New Chat"
    · rw [if_neg (not_not_intro hname), if_neg (not_not_intro hname)]
      rcases hns : existingPdfNames availablePDFs chat with _ | ⟨a, _ | ⟨b, t⟩⟩ <;>
        simp [hns]
    · rw [if_pos hname, if_pos hname]
  · rw [getLastMessageChecked, getLastMessage]
    by_cases h : chat.messages.length = 0
    · rw [if_pos h, dif_pos h]
    · rw [if_neg h, dif_neg h,
        List.get?_eq_get (show chat.messages.length - 1 < chat.messages.length by
          have := Nat.pos_of_ne_zero h
          omega)]
      rfl

/-- C5 counterexample: formatTime is not a pure function of its argument:
`new Date()` inside it reads the ambient clock, so two invocations with the
same date argument under different clock readings disagree (clock 0 gives
"Just now", clock 60000 gives "1m ago" for the same date). -/
theorem formatTime_depends_on_clock :
    formatTime 0 ⟨0, "x"⟩ ≠ formatTime 60000 ⟨0, "x"⟩ := by decide

/-- C5 as amended: truncateText is a function of its two arguments alone,
getChatDisplayName depends only on the stored name, the linked ids and
availablePDFs, getLastMessage only on the message list, and formatTime is
deterministic given the date fields it reads together with the ambient
clock reading (which it does depend on, unlike the other helpers). -/
theorem displayHelpers_deterministic :
    (∀ (availablePDFs : List PDFDocument) (c c' : Conversation),
      c.name = c'.name → c.pdfIds = c'.pdfIds →
      getChatDisplayName availablePDFs c = getChatDisplayName availablePDFs c') ∧
    (∀ c c' : Conversation, c.messages = c'.messages →
      getLastMessage c = getLastMessage c') ∧
    (∀ (now : Int) (d d' : JSDate), d.getTime = d'.getTime →
      d.toLocaleDateString = d'.toLocaleDateString →
      formatTime now d = formatTime now d') := by
  refine ⟨fun availablePDFs c c' h1 h2 => ?_, fun c c' h => ?_, fun now d d' h1 h2 => ?_⟩
  · obtain ⟨i, n, p, m, t, u⟩ := c
    obtain ⟨i', n', p', m', t', u'⟩ := c'
    simp only at h1 h2
    subst h1
    subst h2
    rfl
  · obtain ⟨i, n, p, m, t, u⟩ := c
    obtain ⟨i', n', p', m', t', u'⟩ := c'
    simp only at h
    subst h
    rfl
  · obtain ⟨g, s⟩ := d
    obtain ⟨g', s'⟩ := d'
    simp only at h1 h2
    subst h1
    subst h2
    rfl

/-- C5 witness: two conversations differing only in fields a helper does
not read produce the same derived strings. -/
theorem displayHelpers_deterministic_witness :
    getChatDisplayName [] ⟨"a", "New Chat", [], [], ⟨0, "x"⟩, ⟨0, "x"⟩⟩ =
      getChatDisplayName [] ⟨"b", "New Chat", [], [⟨"hi"⟩], ⟨1, "y"⟩, ⟨2, "z"⟩⟩ ∧
    getLastMessage ⟨"a", "n1", [], [⟨"hi"⟩], ⟨0, "x"⟩, ⟨0, "x"⟩⟩ =
      getLastMessage ⟨"b", "n2", ["p"], [⟨"hi"⟩], ⟨1, "y"⟩, ⟨2, "z"⟩⟩ ∧
    formatTime 5 ⟨0, "x"⟩ = formatTime 5 ⟨0, "x"⟩ :=
  ⟨displayHelpers_deterministic.1 [] _ _ rfl rfl,
   displayHelpers_deterministic.2.1 _ _ rfl,
   displayHelpers_deterministic.2.2 5 _ _ rfl rfl⟩

/-- C6: a dangling link (an id with no matching entry in availablePDFs)
contributes nothing: removing it from the linked-id list changes neither
the derived display name nor the displayed document count, and the count
equals the number of linked ids present in availablePDFs. -/
theorem dangling_links_ignored (availablePDFs : List PDFDocument) (chat : Conversation)
    (danglingId : String) (pre post : List String)
    (hdangling : ∀ pdf ∈ availablePDFs, pdf.id ≠ danglingId)
    (hsplit : chat.pdfIds = pre ++ danglingId :: post) :
    getChatDisplayName availablePDFs chat =
      getChatDisplayName availablePDFs { chat with pdfIds := pre ++ post } ∧
    existingPdfCount availablePDFs chat =
      existingPdfCount availablePDFs { chat with pdfIds := pre ++ post } ∧
    existingPdfCount availablePDFs chat =
      chat.pdfIds.countP (fun pdfId => availablePDFs.any (fun pdf => pdf.id == pdfId)) := by
  have hfind : availablePDFs.find? (fun pdf : PDFDocument => pdf.id == danglingId) = none :=
    List.find?_eq_none.mpr (fun pdf hmem => by simpa using hdangling pdf hmem)
  have hany : availablePDFs.any (fun pdf => pdf.id == danglingId) = false := by
    simp only [List.any_eq_false]
    intro pdf hmem
    simpa using hdangling pdf hmem
  refine ⟨?_, ?_, ?_⟩
  · rw [getChatDisplayName_eq_spec, getChatDisplayName_eq_spec]
    have hnames : chat.pdfIds.filterMap (fun pdfId =>
        (availablePDFs.find? (fun pdf : PDFDocument => pdf.id == pdfId)).map
          PDFDocument.name) =
        (pre ++ post).filterMap (fun pdfId =>
        (availablePDFs.find? (fun pdf : PDFDocument => pdf.id == pdfId)).map
          PDFDocument.name) := by
      rw [hsplit, List.filterMap_append, List.filterMap_append, List.filterMap_cons]
      simp [hfind]
    have hk : chat.pdfIds.countP (fun pdfId =>
        availablePDFs.any (fun pdf : PDFDocument => pdf.id == pdfId)) =
        (pre ++ post).countP (fun pdfId =>
        availablePDFs.any (fun pdf : PDFDocument => pdf.id == pdfId)) := by
      rw [hsplit, List.countP_append, List.countP_append, List.countP_cons]
      simp [hany]
    simp only [displayNameSpec, hnames, hk]
  · simp only [existingPdfCount, hsplit, List.filter_append, List.filter_cons]
    simp [hany]
  · rw [existingPdfCount, List.countP_eq_length_filter]

/-- C6 witness: a concrete chat whose first link is dangling derives the
same display name and the same count as the chat with that link removed. -/
theorem dangling_links_ignored_witness :
    getChatDisplayName [⟨"a", "Alpha"⟩]
        ⟨"c", "New Chat", ["gone", "a"], [], ⟨0, "x"⟩, ⟨0, "x"⟩⟩ =
      getChatDisplayName [⟨"a", "Alpha"⟩]
        { (⟨"c", "New Chat", ["gone", "a"], [], ⟨0, "x"⟩, ⟨0, "x"⟩⟩ : Conversation) with
          pdfIds := [] ++ ["a"] } ∧
    existingPdfCount [⟨"a", "Alpha"⟩]
        ⟨"c", "New Chat", ["gone", "a"], [], ⟨0, "x"⟩, ⟨0, "x"⟩⟩ =
      existingPdfCount [⟨"a", "Alpha"⟩]
        { (⟨"c", "New Chat", ["gone", "a"], [], ⟨0, "x"⟩, ⟨0, "x"⟩⟩ : Conversation) with
          pdfIds := [] ++ ["a"] } ∧
    existingPdfCount [⟨"a", "Alpha"⟩]
        ⟨"c", "New Chat", ["gone", "a"], [], ⟨0, "x"⟩, ⟨0, "x"⟩⟩ =
      List.countP
        (fun pdfId =>
          List.any ([⟨"a", "Alpha"⟩] : List PDFDocument) (fun pdf => pdf.id == pdfId))
        ["gone", "a"] :=
  dangling_links_ignored [⟨"a", "Alpha"⟩]
    ⟨"c", "New Chat", ["gone", "a"], [], ⟨0, "x"⟩, ⟨0, "x"⟩⟩ "gone" [] ["a"]
    (by decide) rfl

end ChatList
